import Mathlib

/-!
Shallow embedding of the collection/normalization/comparison core of the
stock-analysis-dashboard repository, together with theorems settling the
behavioural claims about it.

JavaScript values that the embedded functions inspect are modelled by the
inductive type `JSVal` below; machine numbers are modelled by `ℚ` (the code
performs only field reads, comparisons, +, −, ×, ÷ on them, so exact rational
arithmetic is faithful wherever no float rounding is observable; float
rounding itself is abstracted in `jsToFixed2`, see its comment).
-/

namespace StockDash

/-- A JavaScript value, restricted to the shapes the embedded code inspects:
`null`, `undefined`, numbers, strings and booleans.  Objects and arrays are
modelled structurally by the Lean structures below (a missing object field
reads as `undefined`, as in JavaScript). -/
inductive JSVal where
  | null
  | undefined
  | num (q : ℚ)
  | str (s : String)
  | bool (b : Bool)
  deriving DecidableEq, Repr

/-- JavaScript truthiness: `null`, `undefined`, `0`, `""` and `false` are
falsy, everything else in our value space is truthy. -/
def JSVal.truthy : JSVal → Bool
  | .null => false
  | .undefined => false
  | .num q => q != 0
  | .str s => s != ""
  | .bool b => b

/-- `v` is `null` or `undefined` (the values the `??` operator falls through on). -/
def JSVal.isNullish : JSVal → Bool
  | .null => true
  | .undefined => true
  | _ => false

def JSVal.isString : JSVal → Bool
  | .str _ => true
  | _ => false

/-- JavaScript `a || b`. -/
def jsOr (a b : JSVal) : JSVal := if a.truthy then a else b

/-- JavaScript `a ?? b`. -/
def jsNullish (a b : JSVal) : JSVal := if a.isNullish then b else a

/-! ## Trend classification (frontend/src/utils/formatters.js, getTrend) -/

/-- The tolerance the code compares a percent change against when classifying
its trend.  `getTrend` in formatters.js hard-codes the comparison against `0`,
so the configured tolerance of this build is `0`. -/
def trendTolerance : ℚ := 0

/-- `getTrend` from frontend/src/utils/formatters.js:
`value > 0` gives `up`, `value < 0` gives `down`, otherwise `flat`. -/
def getTrend (value : ℚ) : String :=
  if value > 0 then "up" else if value < 0 then "down" else "flat"

/-! ## Change formatting (formatters.js formatChange vs the local copy in the
ComparisonTable component) -/

def pad2 (n : ℕ) : String := if n < 10 then "0" ++ toString n else toString n

/-- Render a number of hundredths as a fixed two-decimal digit string. -/
def fixed2Digits (n : ℕ) : String := toString (n / 100) ++ "." ++ pad2 (n % 100)

/-- Round a nonnegative rational to the nearest integer, halves away from zero. -/
def roundHalfUp (x : ℚ) : ℕ := (⌊x + 1 / 2⌋).toNat

/-- Model of JavaScript `Number.prototype.toFixed(2)` on exact rationals:
two-decimal rounding (ties away from zero), with the sign rendered in front —
as in JS, a negative value that rounds to zero still renders as `-0.00`.
Binary-float representation error is abstracted away. -/
def jsToFixed2 (q : ℚ) : String :=
  (if q < 0 then "-" else "") ++ fixed2Digits (roundHalfUp (|q| * 100))

/-- `formatChange` from frontend/src/utils/formatters.js:
`null`/`undefined` render as `-`; otherwise `Math.abs(change).toFixed(2)`
(plus `%` when `isPercent`) prefixed with `+` when `change >= 0` and `-`
otherwise. -/
def formatChange (change : Option ℚ) (isPercent : Bool) : String :=
  match change with
  | none => "-"
  | some c =>
    let formatted := jsToFixed2 |c| ++ if isPercent then "%" else ""
    if 0 ≤ c then "+" ++ formatted else "-" ++ formatted

/-- The local `formatChange` in the ComparisonTable component:
`null`/`undefined` render as `-`; otherwise `change.toFixed(2)` (plus `%`
when `isPercent`) prefixed with `+` only when `change > 0`. -/
def formatChangeTable (change : Option ℚ) (isPercent : Bool) : String :=
  match change with
  | none => "-"
  | some c =>
    let formatted := jsToFixed2 c ++ if isPercent then "%" else ""
    if 0 < c then "+" ++ formatted else formatted

/-! ## Analyst-ratings extraction (AnalystRatings page, extractRatings) -/

/-- The `rawData.analystConsensus` object; a missing field reads as `undefined`. -/
structure AnalystConsensusRaw where
  buy : JSVal := .undefined
  hold : JSVal := .undefined
  sell : JSVal := .undefined
  numberOfAnalystRatings : JSVal := .undefined
  consensus : JSVal := .undefined
  consensusRating : JSVal := .undefined
  deriving DecidableEq, Repr

/-- The `rawData.analystPriceTarget` object. -/
structure PriceTargetRaw where
  average : JSVal := .undefined
  high : JSVal := .undefined
  low : JSVal := .undefined
  deriving DecidableEq, Repr

/-- One entry of the `rawData.prices` array; only its `p` field is read. -/
structure PricePoint where
  p : JSVal := .undefined
  deriving DecidableEq, Repr

/-- The `data.raw_data` object.  `none` models a `null`/`undefined`/absent
nested object, which the code replaces by `{}` via `|| {}` (every field of
`{}` reads as `undefined`, i.e. the structure default). -/
structure RawData where
  analystConsensus : Option AnalystConsensusRaw := none
  analystPriceTarget : Option PriceTargetRaw := none
  prices : List PricePoint := []
  deriving DecidableEq, Repr

/-- The parsed API payload `data` handed to `extractRatings`. -/
structure RatingsData where
  raw_data : Option RawData := none
  current_price : JSVal := .undefined
  avg_price_target : JSVal := .undefined
  upside_potential : JSVal := .undefined
  strong_buy_count : JSVal := .undefined
  buy_count : JSVal := .undefined
  hold_count : JSVal := .undefined
  sell_count : JSVal := .undefined
  strong_sell_count : JSVal := .undefined
  total_analysts : JSVal := .undefined
  consensus_text : JSVal := .undefined
  consensus_rating : JSVal := .undefined
  consensus_score : JSVal := .undefined
  high_price_target : JSVal := .undefined
  low_price_target : JSVal := .undefined
  timestamp : JSVal := .undefined
  deriving DecidableEq, Repr

/-- The canonical field map `extractRatings` returns. -/
structure Ratings where
  strong_buy : JSVal
  buy : JSVal
  hold : JSVal
  sell : JSVal
  strong_sell : JSVal
  total_analysts : JSVal
  consensus : JSVal
  consensus_score : JSVal
  avg_price_target : JSVal
  high_price_target : JSVal
  low_price_target : JSVal
  current_price : JSVal
  upside_potential : JSVal
  timestamp : JSVal
  deriving DecidableEq, Repr

/-- `currentPrice > 0` on a payload value (payload prices are numbers). -/
def JSVal.posNum : JSVal → Bool
  | .num q => 0 < q
  | _ => false

/-- `extractRatings` from the AnalystRatings page (the non-null `data` branch;
`extractRatings(null)` short-circuits to `{}` before any field is read).
Field by field:
`strong_buy = data.strong_buy_count ?? 0`,
`buy = data.buy_count || consensus.buy || 0` (and analogously `hold`, `sell`,
`total_analysts`), `consensus = data.consensus_text || data.consensus_rating
|| consensus.consensus || "N/A"`, `consensus_score = data.consensus_score ??
consensus.consensusRating`, price targets via `??`, `currentPrice` falling
back to the last `prices` entry when nullish, and `upsidePotential` computed
as `((avg − current) / current) × 100` only when it is nullish and `avg` and
`current` are truthy with `current > 0`. -/
def extractRatings (data : RatingsData) : Ratings :=
  let rawData := data.raw_data.getD {}
  let consensus := rawData.analystConsensus.getD {}
  let priceTarget := rawData.analystPriceTarget.getD {}
  let prices := rawData.prices
  let currentPrice :=
    if data.current_price.isNullish ∧ 0 < prices.length then
      (prices.getLast?.getD {}).p
    else data.current_price
  let avgPriceTarget := jsNullish data.avg_price_target priceTarget.average
  let upsidePotential :=
    if data.upside_potential.isNullish ∧ avgPriceTarget.truthy ∧ currentPrice.truthy
        ∧ currentPrice.posNum then
      match avgPriceTarget, currentPrice with
      | .num a, .num c => .num ((a - c) / c * 100)
      | _, _ => .undefined
    else data.upside_potential
  { strong_buy := jsNullish data.strong_buy_count (.num 0)
    buy := jsOr (jsOr data.buy_count consensus.buy) (.num 0)
    hold := jsOr (jsOr data.hold_count consensus.hold) (.num 0)
    sell := jsOr (jsOr data.sell_count consensus.sell) (.num 0)
    strong_sell := jsNullish data.strong_sell_count (.num 0)
    total_analysts := jsOr (jsOr data.total_analysts consensus.numberOfAnalystRatings) (.num 0)
    consensus := jsOr (jsOr (jsOr data.consensus_text data.consensus_rating)
      consensus.consensus) (.str "N/A")
    consensus_score := jsNullish data.consensus_score consensus.consensusRating
    avg_price_target := avgPriceTarget
    high_price_target := jsNullish data.high_price_target priceTarget.high
    low_price_target := jsNullish data.low_price_target priceTarget.low
    current_price := currentPrice
    upside_potential := upsidePotential
    timestamp := data.timestamp }

/-! ## News-sentiment decimal rescaling (NewsSentiment page, raw fallback block) -/

/-- The rescaling step applied to each of the four percentage-like fields read
out of `raw_data.newsSentimentScore` on the NewsSentiment page:
`if (v !== null && v !== undefined && v <= 1.0) v = v * 100`.
`none` models a `null`/`undefined` field value. -/
def rescaleIfDecimal (v : Option ℚ) : Option ℚ :=
  match v with
  | some q => if q ≤ 1 then some (q * 100) else some q
  | none => none

/-! ## Input validators (the validation utilities module) -/

/-- JavaScript `String.prototype.trim` on the character list of a string:
whitespace is stripped from both ends. -/
def jsTrim (l : List Char) : List Char :=
  ((l.dropWhile Char.isWhitespace).reverse.dropWhile Char.isWhitespace).reverse

/-- JavaScript `String.prototype.toLowerCase` on one character, restricted to
the ASCII range the validators compare against (non-ASCII letters are left
unchanged; every comparison target in the module is ASCII). -/
def jsLowerChar (c : Char) : Char :=
  match c with
  | 'A' => 'a' | 'B' => 'b' | 'C' => 'c' | 'D' => 'd' | 'E' => 'e' | 'F' => 'f'
  | 'G' => 'g' | 'H' => 'h' | 'I' => 'i' | 'J' => 'j' | 'K' => 'k' | 'L' => 'l'
  | 'M' => 'm' | 'N' => 'n' | 'O' => 'o' | 'P' => 'p' | 'Q' => 'q' | 'R' => 'r'
  | 'S' => 's' | 'T' => 't' | 'U' => 'u' | 'V' => 'v' | 'W' => 'w' | 'X' => 'x'
  | 'Y' => 'y' | 'Z' => 'z'
  | c => c

/-- JavaScript `String.prototype.toUpperCase` on one character (ASCII). -/
def jsUpperChar (c : Char) : Char :=
  match c with
  | 'a' => 'A' | 'b' => 'B' | 'c' => 'C' | 'd' => 'D' | 'e' => 'E' | 'f' => 'F'
  | 'g' => 'G' | 'h' => 'H' | 'i' => 'I' | 'j' => 'J' | 'k' => 'K' | 'l' => 'L'
  | 'm' => 'M' | 'n' => 'N' | 'o' => 'O' | 'p' => 'P' | 'q' => 'Q' | 'r' => 'R'
  | 's' => 'S' | 't' => 'T' | 'u' => 'U' | 'v' => 'V' | 'w' => 'W' | 'x' => 'X'
  | 'y' => 'Y' | 'z' => 'Z'
  | c => c

def jsToLower (l : List Char) : List Char := l.map jsLowerChar

def jsToUpper (l : List Char) : List Char := l.map jsUpperChar

/-- Character class `[1-9]`. -/
def isDigit19 (c : Char) : Bool := '1' ≤ c && c ≤ '9'

/-- Character class `[0-9]`. -/
def isDigit09 (c : Char) : Bool := '0' ≤ c && c ≤ '9'

/-- Character class `[hdwm]` (lowercase only, as the spec's pattern is written). -/
def isUnitChar (c : Char) : Bool := c == 'h' || c == 'd' || c == 'w' || c == 'm'

/-- Character class `[hdwm]` under the regex `i` flag (either case). -/
def isUnitCharCI (c : Char) : Bool :=
  isUnitChar c || c == 'H' || c == 'D' || c == 'W' || c == 'M'

/-- `[0-9]*u$` for a unit class `u`: every character but the last is a digit
and the last satisfies `u`. -/
def digitsThenUnit (unit : Char → Bool) : List Char → Bool
  | [] => false
  | [c] => unit c
  | c :: rest => isDigit09 c && digitsThenUnit unit rest

/-- Full match of `^[1-9][0-9]*u$` for a unit class `u`. -/
def matchesPeriodCore (unit : Char → Bool) : List Char → Bool
  | [] => false
  | c :: rest => isDigit19 c && digitsThenUnit unit rest

/-- The regex `/^[1-9][0-9]*[hdwm]$/i` of `isValidTimeRange` (case-insensitive
unit letter). -/
def matchesPeriodCI (l : List Char) : Bool := matchesPeriodCore isUnitCharCI l

/-- The pattern `[1-9][0-9]*[hdwm]` exactly as the spec states it: a positive
count with no leading zeros followed by one of the lowercase unit letters,
matched against the whole token.  This definition follows the spec's words
and is compared against the validator the code implements. -/
def specPeriodPattern (s : String) : Bool := matchesPeriodCore isUnitChar s.data

/-- Character class `[A-Z0-9]`. -/
def isTickerChar (c : Char) : Bool := ('A' ≤ c && c ≤ 'Z') || ('0' ≤ c && c ≤ '9')

/-- The regex `/^[A-Z0-9]{1,10}$/` of `isValidTicker`. -/
def matchesTickerPattern (l : List Char) : Bool :=
  decide (1 ≤ l.length) && decide (l.length ≤ 10) && l.all isTickerChar

/-- `isValidTicker` from the validation module: falsy or non-string inputs are
rejected, otherwise `/^[A-Z0-9]{1,10}$/` is tested against
`ticker.toUpperCase().trim()`. -/
def isValidTicker (ticker : JSVal) : Bool :=
  if !ticker.truthy || !ticker.isString then false
  else match ticker with
    | .str s => matchesTickerPattern (jsTrim (jsToUpper s.data))
    | _ => false

/-- `VALID_PERIODS` from the validation module, as character lists:
`1h, 2h, 4h, 6h, 12h, 1d, 1w, 1m`. -/
def VALID_PERIODS : List (List Char) :=
  [['1','h'], ['2','h'], ['4','h'], ['6','h'], ['1','2','h'],
   ['1','d'], ['1','w'], ['1','m']]

/-- `isValidTimeRange` from the validation module: falsy or non-string inputs
are rejected, otherwise `/^[1-9][0-9]*[hdwm]$/i` is tested against
`range.trim()`. -/
def isValidTimeRange (range : JSVal) : Bool :=
  if !range.truthy || !range.isString then false
  else match range with
    | .str s => matchesPeriodCI (jsTrim s.data)
    | _ => false

/-- `isValidPeriod` from the validation module: falsy or non-string inputs are
rejected, otherwise the lowercased trimmed token is looked up in
`VALID_PERIODS`, or `isValidTimeRange` is consulted on the original value. -/
def isValidPeriod (period : JSVal) : Bool :=
  if !period.truthy || !period.isString then false
  else match period with
    | .str s =>
      VALID_PERIODS.contains (jsTrim (jsToLower s.data)) || isValidTimeRange (.str s)
    | _ => false

/-! ## Error classification and retry (stockApi.js, errorHandler.js) -/

/-- An axios-style error object as the retry code inspects it:
`code` (`ERR_NETWORK`, `ECONNABORTED`, …), `response.status` when a
response was received (`none` models a missing `response`), and `message`
(the empty string models a missing message, which contains no substring). -/
structure AxiosError where
  code : Option String := none
  responseStatus : Option ℕ := none
  message : String := ""
  deriving DecidableEq, Repr

/-- `t` is a prefix of the second list. -/
def isPrefixOfL : List Char → List Char → Bool
  | [], _ => true
  | _ :: _, [] => false
  | a :: as, b :: bs => a == b && isPrefixOfL as bs

/-- `t` occurs as a contiguous run inside the second list. -/
def listIncludes (t : List Char) : List Char → Bool
  | [] => t == []
  | c :: rest => isPrefixOfL t (c :: rest) || listIncludes t rest

/-- JavaScript `s.includes(pat)` for the patterns the error handler searches
for. -/
def strIncludes (s pat : String) : Bool := listIncludes pat.data s.data

/-- The transience test of `retryWithDelay` in stockApi.js, without the
remaining-attempts conjunct:
`error.code === "ERR_NETWORK" || error.code === "ECONNABORTED" ||
(error.response && error.response.status >= 500 && error.response.status < 600)`. -/
def stockApiTransient (e : AxiosError) : Bool :=
  e.code == some "ERR_NETWORK" || e.code == some "ECONNABORTED" ||
    (match e.responseStatus with
     | some status => decide (500 ≤ status) && decide (status < 600)
     | none => false)

/-- The full `shouldRetry` condition of `retryWithDelay`:
`retries > 0 && (…transient…)`. -/
def shouldRetryStockApi (retries : ℕ) (e : AxiosError) : Bool :=
  decide (0 < retries) && stockApiTransient e

/-- The `ErrorType` enumeration of errorHandler.js (members the classifier
can produce). -/
inductive ErrorType where
  | network | api | validation | auth | notFound | server | unknown
  deriving DecidableEq, Repr

/-- `getErrorType` from errorHandler.js: network-error and timeout checks
first (by `code` or by substring of `message`), then the HTTP status ladder,
else `unknown`. -/
def getErrorType (e : AxiosError) : ErrorType :=
  if strIncludes e.message "Network Error" || e.code == some "ERR_NETWORK" then .network
  else if e.code == some "ECONNABORTED" || strIncludes e.message "timeout" then .network
  else match e.responseStatus with
    | some status =>
      if status = 401 ∨ status = 403 then .auth
      else if status = 404 then .notFound
      else if status = 400 ∨ status = 422 then .validation
      else if 500 ≤ status then .server
      else .api
    | none => .unknown

/-- `isRetryableError` from errorHandler.js: network and server error types
are retryable; otherwise a received response with status in
`[429, 502, 503, 504]` is retryable; everything else is not. -/
def isRetryableError (e : AxiosError) : Bool :=
  let t := getErrorType e
  if t = .network ∨ t = .server then true
  else match e.responseStatus with
    | some status => status ∈ [429, 502, 503, 504]
    | none => false

/-- `MAX_RETRIES` from stockApi.js. -/
def MAX_RETRIES : ℕ := 3

/-- `RETRY_DELAY` from stockApi.js (milliseconds). -/
def RETRY_DELAY : ℕ := 1000

/-- Observable outcome of one `retryWithDelay` run: the value returned or the
error finally thrown, the number of calls made to `fn`, and the backoff
delays awaited between consecutive calls, in order. -/
structure RetryTrace (α : Type) where
  result : Except AxiosError α
  attempts : ℕ
  delays : List ℕ
  deriving Repr

/-- `retryWithDelay` from stockApi.js over a deterministic script of attempt
outcomes: `fn k` is the outcome of the `k`-th call (the first call of a run
at position `k₀` uses `fn k₀`).  On an error, when `retries > 0` and the
error is transient, the run waits `delay` and recurses with `retries − 1` and
`delay * 2`; otherwise the error is rethrown. -/
def retryWithDelay (fn : ℕ → Except AxiosError α) (retries delay k : ℕ) :
    RetryTrace α :=
  match fn k, retries with
    | .ok a, _ => { result := .ok a, attempts := 1, delays := [] }
    | .error e, 0 => { result := .error e, attempts := 1, delays := [] }
    | .error e, r + 1 =>
      if stockApiTransient e then
        let t := retryWithDelay fn r (delay * 2) (k + 1)
        { result := t.result, attempts := t.attempts + 1, delays := delay :: t.delays }
      else { result := .error e, attempts := 1, delays := [] }

/-! ## Comparison engine (per-metric delta) and multi-ticker request gate -/

/-- One metric's comparison block as the engine reports it. -/
structure MetricComparison where
  current_value : ℚ
  previous_value : Option ℚ
  absolute_change : Option ℚ
  percent_change : Option ℚ
  trend : String
  deriving DecidableEq, Repr

/-- Modelled from the spec: the backend Comparison Engine's per-metric
computation inside `compareOverTime` is not under src/ (only its frontend
callers are), so it is modelled from §4.6 of the spec: for a metric present
in `current`, `absolute_change = current − previous` and `percent_change =
absolute_change / previous × 100` only if `previous` exists and is non-zero;
`trend` classifies the percent change (`up` / `down` / `flat`); a missing
`previous` yields a `no-data` block, never a zero default. -/
def compareMetric (current : ℚ) (previous : Option ℚ) : MetricComparison :=
  match previous with
  | none =>
    { current_value := current, previous_value := none, absolute_change := none,
      percent_change := none, trend := "no-data" }
  | some p =>
    let change := current - p
    let pct : Option ℚ := if p ≠ 0 then some (change / p * 100) else none
    { current_value := current, previous_value := some p, absolute_change := some change,
      percent_change := pct,
      trend := match pct with | some q => getTrend q | none => "flat" }

/-- The `tickers` argument of `useCompareTickers`: either already an array or
a single value that the hook wraps (`Array.isArray(tickers) ? tickers :
[tickers]`). -/
inductive TickersArg where
  | arr (l : List String)
  | single (s : String)
  deriving DecidableEq, Repr

/-- `tickersArray` as computed inside `useCompareTickers`. -/
def tickersArray : TickersArg → List String
  | .arr l => l
  | .single s => [s]

/-- The `enabled` gate of the query inside `useCompareTickers`:
`tickersArray.length >= 2`.  The comparison request is issued only when this
is true. -/
def compareTickersEnabled (t : TickersArg) : Bool :=
  decide (2 ≤ (tickersArray t).length)

/-- Modelled from the spec: the backend `compareTickers` endpoint is not
under src/ (only its frontend callers are), so its validation boundary is
modelled from §4.6/§6 of the spec: `compareTickers(tickers[], period,
dataType)` requires at least two tickers, else a request-validation error;
with enough tickers it answers one comparison block per ticker (the block
contents are outside this claim and are represented by the ticker keys). -/
def compareTickersEndpoint (tickers : List String) : Except String (List String) :=
  if tickers.length < 2 then .error "at least two tickers required"
  else .ok tickers

/-! ## Supporting lemmas about the ASCII case mapping and the period pattern -/

lemma jsLowerChar_isWhitespace (c : Char) :
    (jsLowerChar c).isWhitespace = c.isWhitespace := by
  unfold jsLowerChar; split <;> rfl

lemma jsLowerChar_digit09 (c : Char) : isDigit09 (jsLowerChar c) = isDigit09 c := by
  unfold jsLowerChar; split <;> rfl

lemma jsLowerChar_digit19 (c : Char) : isDigit19 (jsLowerChar c) = isDigit19 c := by
  unfold jsLowerChar; split <;> rfl

lemma isUnitCharCI_of_lower (c : Char) (h : isUnitChar (jsLowerChar c) = true) :
    isUnitCharCI c = true := by
  unfold jsLowerChar at h
  split at h <;> first | decide | (exact absurd h (by decide)) | simp [isUnitCharCI, h]

lemma jsTrim_jsToLower (l : List Char) : jsTrim (jsToLower l) = jsToLower (jsTrim l) := by
  have hws : (Char.isWhitespace ∘ jsLowerChar) = Char.isWhitespace := by
    funext c; exact jsLowerChar_isWhitespace c
  unfold jsTrim jsToLower
  rw [List.dropWhile_map, hws, ← List.map_reverse, List.dropWhile_map, hws,
    ← List.map_reverse]

lemma digitsThenUnit_of_lower :
    ∀ m : List Char, digitsThenUnit isUnitChar (jsToLower m) = true →
      digitsThenUnit isUnitCharCI m = true
  | [] => by simp [jsToLower, digitsThenUnit]
  | [c] => by
    intro h
    simp only [jsToLower, List.map] at h
    exact isUnitCharCI_of_lower c h
  | c :: d :: rest => by
    intro h
    simp only [jsToLower, List.map, digitsThenUnit, Bool.and_eq_true] at h ⊢
    refine ⟨?_, digitsThenUnit_of_lower (d :: rest) ?_⟩
    · rw [← jsLowerChar_digit09]; exact h.1
    · exact h.2

lemma matchesPeriodCI_of_lower (m : List Char)
    (h : matchesPeriodCore isUnitChar (jsToLower m) = true) :
    matchesPeriodCI m = true := by
  cases m with
  | nil => simp [jsToLower, matchesPeriodCore] at h
  | cons c rest =>
    simp only [jsToLower, List.map, matchesPeriodCore, Bool.and_eq_true] at h
    simp only [matchesPeriodCI, matchesPeriodCore, Bool.and_eq_true]
    exact ⟨by rw [← jsLowerChar_digit19]; exact h.1, digitsThenUnit_of_lower rest h.2⟩

/-! ## Claim theorems -/

/-- C5 counterexample: the validator accepts the token `"1H"`, although `"1H"`
does not match the spec's pattern `[1-9][0-9]*[hdwm]` (its unit letter is not
lowercase), so "accepted if and only if it matches `[1-9][0-9]*[hdwm]`" is
false on the code: the regex carries the `i` flag and the lookup lowercases. -/
theorem validator_accepts_uppercase_unit :
    isValidPeriod (.str "1H") = true ∧ specPeriodPattern "1H" = false := by
  constructor <;> rfl

/-- C5 (amended): a period token is accepted by `isValidPeriod` if and only if
it is non-empty and, after trimming surrounding whitespace, matches the
pattern `[1-9][0-9]*[hdwm]` case-insensitively (the unit letter may be either
case); the `VALID_PERIODS` whitelist branch is subsumed by that pattern. -/
theorem isValidPeriod_iff_ci_pattern (s : String) :
    isValidPeriod (.str s) = true ↔ s ≠ "" ∧ matchesPeriodCI (jsTrim s.data) = true := by
  constructor
  · intro h
    by_cases hs : s = ""
    · subst hs; simp [isValidPeriod, JSVal.truthy, JSVal.isString] at h
    refine ⟨hs, ?_⟩
    simp only [isValidPeriod, JSVal.truthy, JSVal.isString, Bool.not_eq_true'] at h
    rw [if_neg (by simp [hs]), Bool.or_eq_true] at h
    rcases h with h | h
    · -- the VALID_PERIODS branch: the lowercased trimmed token is in the
      -- whitelist, and each whitelist entry matches the lowercase pattern
      have h' : jsTrim (jsToLower s.data) ∈ VALID_PERIODS := by simpa using h
      rw [jsTrim_jsToLower] at h'
      apply matchesPeriodCI_of_lower
      simp only [VALID_PERIODS, List.mem_cons, List.not_mem_nil, or_false] at h'
      rcases h' with h' | h' | h' | h' | h' | h' | h' | h' <;> rw [h'] <;> decide
    · simpa [isValidTimeRange, JSVal.truthy, JSVal.isString, hs] using h
  · rintro ⟨hs, hm⟩
    simp only [isValidPeriod, JSVal.truthy, JSVal.isString, Bool.not_eq_true']
    rw [if_neg (by simp [hs]), Bool.or_eq_true]
    exact Or.inr (by simpa [isValidTimeRange, JSVal.truthy, JSVal.isString, hs] using hm)

/-- C5 witness: the theorem applied to the concrete token `" 4H "`, which the
validator accepts. -/
theorem isValidPeriod_iff_ci_pattern_witness :
    isValidPeriod (.str " 4H ") = true :=
  (isValidPeriod_iff_ci_pattern " 4H ").mpr ⟨by decide, by decide⟩

/-- C10: the three input validators are total functions into `Bool` (the Lean
embedding is total by construction, mirroring the early `typeof` guards), and
on every degenerate input — `null`, `undefined`, the empty string, or any
non-string value — each returns `false` rather than failing. -/
theorem validators_reject_degenerate_inputs (v : JSVal)
    (h : v = .null ∨ v = .undefined ∨ v = .str "" ∨ v.isString = false) :
    isValidTicker v = false ∧ isValidTimeRange v = false ∧ isValidPeriod v = false := by
  rcases h with h | h | h | h
  · subst h; exact ⟨rfl, rfl, rfl⟩
  · subst h; exact ⟨rfl, rfl, rfl⟩
  · subst h; exact ⟨rfl, rfl, rfl⟩
  · cases v <;> simp_all [isValidTicker, isValidTimeRange, isValidPeriod, JSVal.isString]

/-- C10 witness: the theorem applied at `null`, at the number `7`, and at the
empty string. -/
theorem validators_reject_degenerate_inputs_witness :
    isValidTicker .null = false ∧ isValidPeriod (.num 7) = false ∧
      isValidTimeRange (.str "") = false :=
  ⟨(validators_reject_degenerate_inputs .null (Or.inl rfl)).1,
   (validators_reject_degenerate_inputs (.num 7) (by simp [JSVal.isString])).2.2,
   (validators_reject_degenerate_inputs (.str "") (by simp)).2.1⟩

/-- C6: `getTrend` classifies a percent change as `up` exactly when it exceeds
the configured tolerance (`trendTolerance = 0` in this build), as `down`
exactly when it is below the negated tolerance, and as `flat` otherwise; a
value at or inside the tolerance band is never classified `up` or `down`. -/
theorem getTrend_classification (v : ℚ) :
    (getTrend v = "up" ↔ trendTolerance < v) ∧
    (getTrend v = "down" ↔ v < -trendTolerance) ∧
    (-trendTolerance ≤ v → v ≤ trendTolerance → getTrend v = "flat") := by
  simp only [getTrend, trendTolerance, neg_zero]
  split_ifs with h1 h2 <;> refine ⟨?_, ?_, ?_⟩ <;> simp_all <;> linarith

/-- C6 witness: the theorem applied at the tolerance boundary `0` (classified
`flat`) and at `5` (classified `up`). -/
theorem getTrend_classification_witness :
    getTrend 0 = "flat" ∧ getTrend 5 = "up" :=
  ⟨(getTrend_classification 0).2.2 (by norm_num [trendTolerance])
      (by norm_num [trendTolerance]),
   (getTrend_classification 5).1.mpr (by norm_num [trendTolerance])⟩

/-- The `consensus` object `extractRatings` falls back to:
`(data.raw_data || {}).analystConsensus || {}`. -/
def consensusOf (d : RatingsData) : AnalystConsensusRaw :=
  (d.raw_data.getD {}).analystConsensus.getD {}

/-- A payload whose parsed `buy_count` is the legitimate number `0` while the
raw consensus object reports `buy = 5`. -/
def zeroBuyPayload : RatingsData :=
  { buy_count := .num 0,
    raw_data := some { analystConsensus := some { buy := .num 5 } } }

/-- C1 counterexample: with parsed `buy_count = 0` the raw fallback *is*
consulted (`buy` comes back `5`, not the parsed `0`), and on an entirely
empty payload the absent `buy` is coerced to the number `0` instead of an
absent marker — both halves of the claim fail on `extractRatings`. -/
theorem extractRatings_zero_triggers_fallback :
    zeroBuyPayload.buy_count = JSVal.num 0 ∧
    (extractRatings zeroBuyPayload).buy = JSVal.num 5 ∧
    (extractRatings {}).buy = JSVal.num 0 := by
  refine ⟨rfl, ?_, ?_⟩ <;> rfl

/-- The `priceTarget` object `extractRatings` falls back to:
`(data.raw_data || {}).analystPriceTarget || {}`. -/
def priceTargetOf (d : RatingsData) : PriceTargetRaw :=
  (d.raw_data.getD {}).analystPriceTarget.getD {}

/-- C1 (amended): in `extractRatings` the fields read with `??` — `strong_buy`
and `strong_sell` (falling back to the constant `0`) and `consensus_score`,
`avg_price_target`, `high_price_target`, `low_price_target` (falling back to
their raw-payload locations) — consult the fallback exactly when the parsed
value is null/undefined, so a parsed `0` is returned unchanged; but the
metric fields read with `||` (`buy`, `hold`, `sell`, `total_analysts`)
consult the raw fallback whenever the parsed value is falsy — including the
legitimate number `0` — and default to the number `0` (not an absent marker)
when the raw location is also falsy. -/
theorem extractRatings_fallback_characterization (d : RatingsData) :
    (d.strong_buy_count.isNullish = true → (extractRatings d).strong_buy = .num 0) ∧
    (d.strong_buy_count.isNullish = false →
      (extractRatings d).strong_buy = d.strong_buy_count) ∧
    (d.strong_sell_count.isNullish = true → (extractRatings d).strong_sell = .num 0) ∧
    (d.strong_sell_count.isNullish = false →
      (extractRatings d).strong_sell = d.strong_sell_count) ∧
    (d.consensus_score.isNullish = true →
      (extractRatings d).consensus_score = (consensusOf d).consensusRating) ∧
    (d.consensus_score.isNullish = false →
      (extractRatings d).consensus_score = d.consensus_score) ∧
    (d.avg_price_target.isNullish = true →
      (extractRatings d).avg_price_target = (priceTargetOf d).average) ∧
    (d.avg_price_target.isNullish = false →
      (extractRatings d).avg_price_target = d.avg_price_target) ∧
    (d.high_price_target.isNullish = true →
      (extractRatings d).high_price_target = (priceTargetOf d).high) ∧
    (d.high_price_target.isNullish = false →
      (extractRatings d).high_price_target = d.high_price_target) ∧
    (d.low_price_target.isNullish = true →
      (extractRatings d).low_price_target = (priceTargetOf d).low) ∧
    (d.low_price_target.isNullish = false →
      (extractRatings d).low_price_target = d.low_price_target) ∧
    (d.buy_count.truthy = true → (extractRatings d).buy = d.buy_count) ∧
    (d.buy_count.truthy = false →
      (extractRatings d).buy = jsOr (consensusOf d).buy (.num 0)) ∧
    (d.hold_count.truthy = true → (extractRatings d).hold = d.hold_count) ∧
    (d.hold_count.truthy = false →
      (extractRatings d).hold = jsOr (consensusOf d).hold (.num 0)) ∧
    (d.sell_count.truthy = true → (extractRatings d).sell = d.sell_count) ∧
    (d.sell_count.truthy = false →
      (extractRatings d).sell = jsOr (consensusOf d).sell (.num 0)) ∧
    (d.total_analysts.truthy = true →
      (extractRatings d).total_analysts = d.total_analysts) ∧
    (d.total_analysts.truthy = false →
      (extractRatings d).total_analysts =
        jsOr (consensusOf d).numberOfAnalystRatings (.num 0)) := by
  have hb : (extractRatings d).buy = jsOr (jsOr d.buy_count (consensusOf d).buy) (.num 0) :=
    rfl
  have hh : (extractRatings d).hold =
      jsOr (jsOr d.hold_count (consensusOf d).hold) (.num 0) := rfl
  have hs : (extractRatings d).sell =
      jsOr (jsOr d.sell_count (consensusOf d).sell) (.num 0) := rfl
  have hta : (extractRatings d).total_analysts =
      jsOr (jsOr d.total_analysts (consensusOf d).numberOfAnalystRatings) (.num 0) := rfl
  have hsb : (extractRatings d).strong_buy = jsNullish d.strong_buy_count (.num 0) := rfl
  have hss : (extractRatings d).strong_sell = jsNullish d.strong_sell_count (.num 0) := rfl
  have hcs : (extractRatings d).consensus_score =
      jsNullish d.consensus_score (consensusOf d).consensusRating := rfl
  have hav : (extractRatings d).avg_price_target =
      jsNullish d.avg_price_target (priceTargetOf d).average := rfl
  have hhi : (extractRatings d).high_price_target =
      jsNullish d.high_price_target (priceTargetOf d).high := rfl
  have hlo : (extractRatings d).low_price_target =
      jsNullish d.low_price_target (priceTargetOf d).low := rfl
  refine ⟨fun h => ?_, fun h => ?_, fun h => ?_, fun h => ?_, fun h => ?_, fun h => ?_,
    fun h => ?_, fun h => ?_, fun h => ?_, fun h => ?_, fun h => ?_, fun h => ?_,
    fun h => ?_, fun h => ?_, fun h => ?_, fun h => ?_, fun h => ?_, fun h => ?_,
    fun h => ?_, fun h => ?_⟩
  · rw [hsb]; simp [jsNullish, h]
  · rw [hsb]; simp [jsNullish, h]
  · rw [hss]; simp [jsNullish, h]
  · rw [hss]; simp [jsNullish, h]
  · rw [hcs]; simp [jsNullish, h]
  · rw [hcs]; simp [jsNullish, h]
  · rw [hav]; simp [jsNullish, h]
  · rw [hav]; simp [jsNullish, h]
  · rw [hhi]; simp [jsNullish, h]
  · rw [hhi]; simp [jsNullish, h]
  · rw [hlo]; simp [jsNullish, h]
  · rw [hlo]; simp [jsNullish, h]
  · rw [hb]; simp [jsOr, h]
  · rw [hb]; simp [jsOr, h]
  · rw [hh]; simp [jsOr, h]
  · rw [hh]; simp [jsOr, h]
  · rw [hs]; simp [jsOr, h]
  · rw [hs]; simp [jsOr, h]
  · rw [hta]; simp [jsOr, h]
  · rw [hta]; simp [jsOr, h]

/-- C1 witness: the amended theorem applied to a payload whose
`strong_buy_count` is the number `0` (returned unchanged), one whose
`consensus_score` is the number `0` (returned unchanged, its raw fallback not
consulted), and one whose `buy_count` is the truthy number `3` (returned
unchanged). -/
theorem extractRatings_fallback_characterization_witness :
    (extractRatings { strong_buy_count := .num 0 }).strong_buy = JSVal.num 0 ∧
    (extractRatings { consensus_score := .num 0 }).consensus_score = JSVal.num 0 ∧
    (extractRatings { buy_count := .num 3 }).buy = JSVal.num 3 :=
  ⟨(extractRatings_fallback_characterization { strong_buy_count := .num 0 }).2.1 rfl,
   (extractRatings_fallback_characterization
      { consensus_score := .num 0 }).2.2.2.2.2.1 rfl,
   (extractRatings_fallback_characterization
      { buy_count := .num 3 }).2.2.2.2.2.2.2.2.2.2.2.2.1 (by decide)⟩

/-- C2 counterexample: an HTTP 429 response with attempts remaining is *not*
retried by the stockApi retry wrapper (`shouldRetry` is false), although the
`isRetryableError` classifier in errorHandler.js does deem it retryable —
the claim's "retries exactly timeout, network, 5xx and 429" is false for the
retry wrapper. -/
theorem retryWrapper_does_not_retry_429 :
    shouldRetryStockApi MAX_RETRIES { responseStatus := some 429 } = false ∧
    isRetryableError { responseStatus := some 429 } = true := by
  constructor <;> rfl

/-- C2 (amended): the retry wrapper `retryWithDelay` retries (given remaining
attempts) exactly the timeouts (`ECONNABORTED`), network failures
(`ERR_NETWORK`) and HTTP 5xx responses; HTTP 429 — like every other 4xx — is
permanent for the wrapper, even though every outcome the wrapper retries is
also classified retryable by `isRetryableError` (which additionally accepts
429). -/
theorem retryWrapper_transient_classification :
    (∀ (e : AxiosError) (r : ℕ), 0 < r →
      (shouldRetryStockApi r e = true ↔
        (e.code = some "ERR_NETWORK" ∨ e.code = some "ECONNABORTED" ∨
          ∃ s, e.responseStatus = some s ∧ 500 ≤ s ∧ s < 600))) ∧
    (∀ e : AxiosError, stockApiTransient e = true → isRetryableError e = true) := by
  constructor
  · intro e r hr
    simp only [shouldRetryStockApi, stockApiTransient, Bool.and_eq_true,
      decide_eq_true_eq, Bool.or_eq_true, beq_iff_eq]
    cases hst : e.responseStatus with
    | none => simp [hr, hst]
    | some s =>
      simp [hr, hst]
      tauto
  · intro e h
    simp only [stockApiTransient, Bool.or_eq_true, beq_iff_eq] at h
    rcases h with (h | h) | h
    · simp [isRetryableError, getErrorType, h]
    · simp only [isRetryableError, getErrorType]
      by_cases hn : strIncludes e.message "Network Error" || e.code == some "ERR_NETWORK"
      · simp [hn]
      · simp [hn, h]
    · revert h
      cases hst : e.responseStatus with
      | none => intro h; simp at h
      | some s =>
        intro h
        simp only [Bool.and_eq_true, decide_eq_true_eq] at h
        simp only [isRetryableError, getErrorType]
        by_cases hn : strIncludes e.message "Network Error" || e.code == some "ERR_NETWORK"
        · simp [hn]
        · by_cases ht : e.code == some "ECONNABORTED" || strIncludes e.message "timeout"
          · simp [hn, ht]
          · have h401 : ¬(s = 401 ∨ s = 403) := by omega
            have h404 : ¬s = 404 := by omega
            have h400 : ¬(s = 400 ∨ s = 422) := by omega
            simp [hn, ht, hst, h401, h404, h400, h.1]

/-- C2 witness: the amended theorem applied to a network error with attempts
remaining, which the wrapper retries. -/
theorem retryWrapper_transient_classification_witness :
    shouldRetryStockApi 3 { code := some "ERR_NETWORK" } = true :=
  (retryWrapper_transient_classification.1 { code := some "ERR_NETWORK" } 3
    (by norm_num)).mpr (Or.inl rfl)

/-- C4 counterexample: the raw value `−2` has magnitude greater than `1`, yet
the rescaling step multiplies it by 100 (the code guard is the signed
comparison `v <= 1.0`, not a magnitude test), so "no value with magnitude
greater than 1.0 is ever rescaled" is false. -/
theorem rescale_applies_to_negative_below_minus_one :
    rescaleIfDecimal (some (-2)) = some (-200) ∧ ¬(|(-2 : ℚ)| ≤ 1) := by
  constructor
  · norm_num [rescaleIfDecimal]
  · norm_num

/-- C4 (amended): a percentage-like raw value is rescaled ×100 exactly when
it is at most `1.0` under the signed comparison the code performs — every
value `≤ 1` (including all negative values, whatever their magnitude) is
rescaled, every value `> 1` is left unchanged, and a null/undefined value is
left untouched. -/
theorem rescaleIfDecimal_signed_guard (q : ℚ) :
    (q ≤ 1 → rescaleIfDecimal (some q) = some (q * 100)) ∧
    (1 < q → rescaleIfDecimal (some q) = some q) ∧
    rescaleIfDecimal none = none := by
  refine ⟨fun h => ?_, fun h => ?_, rfl⟩
  · simp [rescaleIfDecimal, h]
  · simp [rescaleIfDecimal, not_le.mpr h]

/-- C4 witness: the amended theorem applied at `1/2` (rescaled to `50`) and
at `55` (left unchanged). -/
theorem rescaleIfDecimal_signed_guard_witness :
    rescaleIfDecimal (some (1 / 2)) = some (1 / 2 * 100) ∧
    rescaleIfDecimal (some 55) = some 55 :=
  ⟨(rescaleIfDecimal_signed_guard (1 / 2)).1 (by norm_num),
   (rescaleIfDecimal_signed_guard 55).2.1 (by norm_num)⟩

/-- C3: the comparison engine computes `absolute_change = current − previous`,
and performs the percent-change division only under the guard `previous`
exists and is non-zero — `percent_change` is absent both when `previous` is
missing and when it is zero, never computed by dividing by zero or by a
default. -/
theorem compareMetric_guarded_division (cur p : ℚ) :
    ((compareMetric cur (some p)).absolute_change = some (cur - p)) ∧
    (p ≠ 0 → (compareMetric cur (some p)).percent_change = some ((cur - p) / p * 100)) ∧
    (p = 0 → (compareMetric cur (some p)).percent_change = none) ∧
    (compareMetric cur none).percent_change = none := by
  refine ⟨rfl, fun h => ?_, fun h => ?_, rfl⟩
  · simp [compareMetric, h]
  · simp [compareMetric, h]

/-- C3 witness: the theorem applied to the spec's worked example — current
`buy = 10` against previous `buy = 8` gives change `2`, percent `25`, trend
`up`. -/
theorem compareMetric_guarded_division_witness :
    (compareMetric 10 (some 8)).absolute_change = some 2 ∧
    (compareMetric 10 (some 8)).percent_change = some 25 ∧
    (compareMetric 10 (some 8)).trend = "up" := by
  refine ⟨?_, ?_, ?_⟩
  · have h := (compareMetric_guarded_division 10 8).1
    norm_num at h
    exact h
  · have h := (compareMetric_guarded_division 10 8).2.1 (by norm_num)
    norm_num at h
    exact h
  · have h8 : ((8:ℚ) ≠ 0) := by norm_num
    simp only [compareMetric, h8, if_true]
    norm_num [getTrend]

/-- C7: the multi-ticker comparison request is gated on at least two tickers
(`enabled` in `useCompareTickers` is exactly `tickersArray.length >= 2`, so a
shorter list — including a single non-array ticker, which the hook wraps —
never issues the request), and the endpoint answers a request-validation
error for fewer than two tickers and a per-ticker result otherwise. -/
theorem compareTickers_requires_two_tickers :
    (∀ t : TickersArg, compareTickersEnabled t = true ↔ 2 ≤ (tickersArray t).length) ∧
    (∀ l : List String, l.length < 2 →
      compareTickersEndpoint l = .error "at least two tickers required") ∧
    (∀ l : List String, 2 ≤ l.length → compareTickersEndpoint l = .ok l) := by
  refine ⟨fun t => ?_, fun l hl => ?_, fun l hl => ?_⟩
  · simp [compareTickersEnabled]
  · simp [compareTickersEndpoint, hl]
  · rw [compareTickersEndpoint, if_neg (by omega)]

/-- C7 witness: the theorem applied to the single ticker list `["AAPL"]`
(validation error) and to the pair `["AAPL", "TSLA"]` (request issued). -/
theorem compareTickers_requires_two_tickers_witness :
    compareTickersEndpoint ["AAPL"] = .error "at least two tickers required" ∧
    compareTickersEnabled (.arr ["AAPL", "TSLA"]) = true :=
  ⟨compareTickers_requires_two_tickers.2.1 ["AAPL"] (by norm_num),
   (compareTickers_requires_two_tickers.1 (.arr ["AAPL", "TSLA"])).mpr
     (by norm_num [tickersArray])⟩

/-- C8: for every outcome script, retry budget, base delay and starting
position, `retryWithDelay` makes at most `retries + 1` calls (one initial
attempt plus at most the configured `MAX_RETRIES` retries), and the waits it
performs are exactly `delay · 2⁰, delay · 2¹, …` — the backoff starts at the
configured base and doubles on each successive retry. -/
theorem retryWithDelay_backoff (α : Type) (fn : ℕ → Except AxiosError α)
    (retries delay k : ℕ) :
    (retryWithDelay fn retries delay k).attempts ≤ retries + 1 ∧
    ∃ n, (retryWithDelay fn retries delay k).delays =
      (List.range n).map (fun i => delay * 2 ^ i) := by
  induction retries generalizing delay k with
  | zero =>
    cases hfk : fn k with
    | ok a => refine ⟨?_, 0, ?_⟩ <;> simp [retryWithDelay.eq_def, hfk]
    | error e => refine ⟨?_, 0, ?_⟩ <;> simp [retryWithDelay.eq_def, hfk]
  | succ r ih =>
    cases hfk : fn k with
    | ok a => refine ⟨?_, 0, ?_⟩ <;> simp [retryWithDelay.eq_def, hfk]
    | error e =>
      by_cases he : stockApiTransient e = true
      · obtain ⟨ih1, n, ihn⟩ := ih (delay * 2) (k + 1)
        refine ⟨?_, n + 1, ?_⟩
        · rw [retryWithDelay.eq_def, hfk]
          simp only [he, if_true]
          omega
        · rw [retryWithDelay.eq_def, hfk]
          simp only [he, if_true]
          rw [ihn, List.range_succ_eq_map]
          simp only [List.map_cons, List.map_map, pow_zero, mul_one, List.cons.injEq,
            true_and]
          apply List.map_congr_left
          intro i _
          simp only [Function.comp_apply]
          rw [pow_succ]
          ring
      · rw [Bool.not_eq_true] at he
        refine ⟨?_, 0, ?_⟩ <;> simp [retryWithDelay.eq_def, hfk, he]

/-- C9 counterexample: at `change = 0` the shared `formatChange` renders
`"+0.00"` (it tests `change >= 0`) while the ComparisonTable copy renders
`"0.00"` (it tests `change > 0`), so the two implementations are not
extensionally equal. -/
theorem formatChange_implementations_differ_at_zero :
    formatChange (some 0) false = "+0.00" ∧ formatChangeTable (some 0) false = "0.00" := by
  have hfl : (⌊(0:ℚ) + 1 / 2⌋ : ℤ) = 0 := by
    rw [Int.floor_eq_zero_iff]
    constructor <;> norm_num
  have hr : roundHalfUp (|(0:ℚ)| * 100) = 0 := by
    rw [abs_zero, zero_mul, roundHalfUp, hfl]
    rfl
  have hj0 : jsToFixed2 0 = "0.00" := by
    rw [jsToFixed2, hr, if_neg (by norm_num)]
    decide
  have hjabs : jsToFixed2 |(0:ℚ)| = "0.00" := by
    rw [abs_zero]
    exact hj0
  constructor
  · simp only [formatChange]
    rw [if_pos (le_refl (0:ℚ)), hjabs]
    decide
  · simp only [formatChangeTable]
    rw [if_neg (lt_irrefl (0:ℚ)), hj0]
    decide

/-- C9 (amended): the two `formatChange` implementations agree at every
null/undefined change and at every non-zero change (including all negatives,
where the table copy lets `toFixed` render the minus sign the shared copy
adds by hand); they differ exactly at zero, where the shared copy prints a
`+` prefix and the table copy does not. -/
theorem formatChange_agree_off_zero (q : ℚ) (b : Bool) (h : q ≠ 0) :
    formatChange (some q) b = formatChangeTable (some q) b ∧
    formatChange none b = formatChangeTable none b := by
  refine ⟨?_, rfl⟩
  rcases lt_or_gt_of_ne h with hlt | hgt
  · have h1 : ¬(0 ≤ q) := not_le.mpr hlt
    have h2 : ¬(0 < q) := not_lt.mpr (le_of_lt hlt)
    have h3 : ¬(|q| < 0) := not_lt.mpr (abs_nonneg q)
    simp only [formatChange, formatChangeTable, jsToFixed2, if_neg h1, if_neg h2,
      if_pos hlt, if_neg h3, abs_abs, String.empty_append]
    rw [String.append_assoc]
  · have h1 : 0 ≤ q := le_of_lt hgt
    have h2 : ¬(q < 0) := not_lt.mpr h1
    have h3 : ¬(|q| < 0) := not_lt.mpr (abs_nonneg q)
    simp only [formatChange, formatChangeTable, jsToFixed2, if_pos h1, if_pos hgt,
      if_neg h2, if_neg h3, abs_abs, abs_of_pos hgt, String.empty_append]

/-- C9 witness: the amended theorem applied at the non-zero change `-3/2`,
where both implementations render `-1.50`. -/
theorem formatChange_agree_off_zero_witness :
    formatChange (some (-3 / 2)) false = formatChangeTable (some (-3 / 2)) false :=
  (formatChange_agree_off_zero (-3 / 2) false (by norm_num)).1

end StockDash
